import Mathlib

/-!
Verification of the homebridge-nest-google thermostat plugin.

The repository contains three iterations of the same subsystem:
* `src/unnamed/part_000` — handler class `GoogleNestThermostatHandler`
  working over an accessor delivered by `GoogleNestThermostatApi.fetch()`
  (embedded here under the `Handler` namespace);
* `src/src/platformAccessory.ts` lines 503-917 — class `GoogleNestThermostat`
  with `fetchStates()` and the closer-setpoint target-temperature read
  (embedded under the `Thermostat` namespace);
* `src/src/platformAccessory.ts` lines 1065-1271 — `GoogleNestThermostatApi`
  with the adaptive `Timeout`, the 500ms-bounded `fetchMutex`, and the
  `GoogleNestThermostatCharacteristics` accessor class (embedded as the
  `api*` step functions and `jsGet`).

Temperatures are modelled as rationals; machine timestamps as naturals
(milliseconds).  Thrown `HapStatusError`s are modelled with `Except`.
-/

/-- Connectivity trait status (`sdm.devices.traits.Connectivity.status`). -/
inductive Connectivity
  | online
  | offline
deriving DecidableEq

/-- Eco trait mode (`sdm.devices.traits.ThermostatEco.mode`). -/
inductive EcoMode
  | manualEco
  | off
deriving DecidableEq

/-- Hvac trait status (`sdm.devices.traits.ThermostatHvac.status`). -/
inductive HvacStatus
  | heating
  | cooling
  | off
deriving DecidableEq

/-- Remote thermostat mode (`sdm.devices.traits.ThermostatMode.mode`). -/
inductive RemoteMode
  | heat
  | cool
  | heatcool
  | off
deriving DecidableEq

/-- Display unit (`sdm.devices.traits.Settings.temperatureScale`). -/
inductive DisplayUnit
  | fahrenheit
  | celsius
deriving DecidableEq

/-- Wire string of a remote mode, as compared against
`availableModes` by `handleTargetHeatingCoolingStateSet`. -/
def RemoteMode.toWire : RemoteMode → String
  | .heat => "HEAT"
  | .cool => "COOL"
  | .heatcool => "HEATCOOL"
  | .off => "OFF"

/-- The `sdm.devices.traits.ThermostatTemperatureSetpoint` trait object:
both fields independently optional. -/
structure Setpoint where
  heatCelsius : Option ℚ
  coolCelsius : Option ℚ
deriving DecidableEq

/-- Canonical traits record, the output of `deviceToTraits`
(src/src/platformAccessory.ts:1096-1117): every field is optional because
the remote device document may omit any trait group. -/
structure Traits where
  connectivity : Option Connectivity
  ecoMode : Option EcoMode
  currentTemperature : Option ℚ
  hvacStatus : Option HvacStatus
  targetMode : Option RemoteMode
  availableTargetModes : Option (List String)
  displayUnit : Option DisplayUnit
  temperatureSetpoint : Option Setpoint
  relativeHumidity : Option ℚ
deriving DecidableEq

/-- The discrete HAP status codes raised by the plugin
(`HapStatusError` arguments). -/
inductive HapErr
  | resourceDoesNotExist
  | serviceCommunicationFailure
  | resourceBusy
  | notAllowedInCurrentState
  | invalidValueInRequest
  | readOnlyCharacteristic
deriving DecidableEq

/-- Result of a request: either a value or a thrown `HapStatusError`. -/
abbrev Res (α : Type) := Except HapErr α

/-- A JavaScript value as stored in a `Traits` field: a number, a string
(enum wire value), an array (`availableModes`) or an object (the setpoint). -/
inductive JsValue
  | num (q : ℚ)
  | str (s : String)
  | arr (xs : List String)
  | obj (sp : Setpoint)
deriving DecidableEq

/-- JavaScript truthiness of a trait value: a number is falsy exactly when
it is 0, a string exactly when it is empty; arrays and objects are always
truthy. -/
def JsValue.truthy : JsValue → Bool
  | .num q => q != 0
  | .str s => s != ""
  | .arr _ => true
  | .obj _ => true

/-- Embeds `GoogleNestThermostatCharacteristics.get`
(src/src/platformAccessory.ts:1232-1238): `if (!this.traits[name])` invokes
the error callback, which throws `RESOURCE_DOES_NOT_EXIST`; thus an absent
field or a JS-falsy value both fail. -/
def jsGet (o : Option JsValue) : Res JsValue :=
  match o with
  | none => .error .resourceDoesNotExist
  | some v => if v.truthy then .ok v else .error .resourceDoesNotExist

/-- JS truthiness filter for an optional number: `undefined` and `0` are
falsy and collapse to `none`; a nonzero value is kept.  Used wherever the
source tests a setpoint field with `!heat` / `heat && ...`. -/
def truthyNumVal (o : Option ℚ) : Option ℚ :=
  match o with
  | none => none
  | some q => if q = 0 then none else some q

/-- Embeds `getEcoMode()` (accessor class line 1240 and private method
lines 204-213/658-667): the wire values `"MANUAL_ECO"`/`"OFF"` are nonempty
strings, hence truthy, so the falsiness check reduces to presence. -/
def getEcoMode (t : Traits) : Res EcoMode :=
  match t.ecoMode with
  | none => .error .resourceDoesNotExist
  | some m => .ok m

/-- Embeds `getCurrentTemperature()` (accessor line 1244 and private method
lines 215-223/669-677): the stored value is a number, so `!temp` also
rejects an ambient temperature of exactly 0. -/
def getCurrentTemperature (t : Traits) : Res ℚ :=
  match t.currentTemperature with
  | none => .error .resourceDoesNotExist
  | some q => if q = 0 then .error .resourceDoesNotExist else .ok q

/-- Embeds `getTargetMode()` (accessor line 1248, private lines
225-233/679-687): wire strings are nonempty, so the check is presence. -/
def getTargetMode (t : Traits) : Res RemoteMode :=
  match t.targetMode with
  | none => .error .resourceDoesNotExist
  | some m => .ok m

/-- Embeds `getHvacStatus()` (accessor line 1252, private lines
194-202/648-656). -/
def getHvacStatus (t : Traits) : Res HvacStatus :=
  match t.hvacStatus with
  | none => .error .resourceDoesNotExist
  | some st => .ok st

/-- Embeds `getAvailableTargetModes()` (accessor line 1256, private lines
235-243/689-697): a JS array is truthy even when empty, so the check is
presence. -/
def getAvailableTargetModes (t : Traits) : Res (List String) :=
  match t.availableTargetModes with
  | none => .error .resourceDoesNotExist
  | some xs => .ok xs

/-- Embeds `getDisplayUnit()` (accessor line 1260, private lines
245-253/699-707). -/
def getDisplayUnit (t : Traits) : Res DisplayUnit :=
  match t.displayUnit with
  | none => .error .resourceDoesNotExist
  | some u => .ok u

/-- Embeds `getTemperatureSetpoint()` (accessor line 1264, private lines
255-263/709-717): a JS object is truthy even when it has no fields, so the
check is presence of the trait group. -/
def getTemperatureSetpoint (t : Traits) : Res Setpoint :=
  match t.temperatureSetpoint with
  | none => .error .resourceDoesNotExist
  | some sp => .ok sp

/-- HomeKit `TargetHeatingCoolingState.OFF` (external HAP constant 0). -/
def TargetStateOFF : ℕ := 0

/-- HomeKit `TargetHeatingCoolingState.HEAT` (external HAP constant 1). -/
def TargetStateHEAT : ℕ := 1

/-- HomeKit `TargetHeatingCoolingState.COOL` (external HAP constant 2). -/
def TargetStateCOOL : ℕ := 2

/-- HomeKit `TargetHeatingCoolingState.AUTO` (external HAP constant 3). -/
def TargetStateAUTO : ℕ := 3

/-- HomeKit `CurrentHeatingCoolingState.OFF` (external HAP constant 0);
this is the constant the target-mode get returns in its fallthrough. -/
def CurrentStateOFF : ℕ := 0

/-- The four local modes the accessory registers as `validValues`
(part_000 lines 74-78). -/
inductive LocalMode
  | off
  | heat
  | cool
  | auto
deriving DecidableEq

/-- The HAP numeric value of each local mode. -/
def localModeValue : LocalMode → ℕ
  | .off => TargetStateOFF
  | .heat => TargetStateHEAT
  | .cool => TargetStateCOOL
  | .auto => TargetStateAUTO

/-- Embeds the inner `valueToMode` of `handleTargetHeatingCoolingStateSet`
(part_000 lines 152-163): HEAT ↦ HEAT, COOL ↦ COOL, AUTO ↦ HEATCOOL, every
other value defaults to OFF. -/
def valueToMode (value : ℕ) : RemoteMode :=
  if value = TargetStateHEAT then .heat
  else if value = TargetStateCOOL then .cool
  else if value = TargetStateAUTO then .heatcool
  else .off

/-- A remote command issued through `executeCommand`. -/
inductive Command
  | setMode (mode : RemoteMode)
  | setHeat (heatCelsius : ℚ)
  | setCool (coolCelsius : ℚ)
  | setRange (heatCelsius : Option ℚ) (coolCelsius : Option ℚ)
  | ecoSetMode (mode : EcoMode)
deriving DecidableEq

/-- Wire command name, exactly as in the source. -/
def Command.wireName : Command → String
  | .setMode _ => "sdm.devices.commands.ThermostatMode.SetMode"
  | .setHeat _ => "sdm.devices.commands.ThermostatTemperatureSetpoint.SetHeat"
  | .setCool _ => "sdm.devices.commands.ThermostatTemperatureSetpoint.SetCool"
  | .setRange _ _ => "sdm.devices.commands.ThermostatTemperatureSetpoint.SetRange"
  | .ecoSetMode _ => "sdm.devices.commands.ThermostatEco.SetMode"

/-- Embeds `handleTargetHeatingCoolingStateGet` (part_000 lines 130-142):
the argument is the characteristics snapshot returned by `api.fetch()`.
The fallthrough branch returns `CurrentHeatingCoolingState.OFF`
(numerically 0, the same as the target-state OFF). -/
def Handler.handleTargetHeatingCoolingStateGet (t : Traits) : Res ℕ :=
  match getTargetMode t with
  | .error e => .error e
  | .ok .heat => .ok TargetStateHEAT
  | .ok .cool => .ok TargetStateCOOL
  | .ok .heatcool => .ok TargetStateAUTO
  | .ok .off => .ok CurrentStateOFF

/-- Embeds `handleTargetHeatingCoolingStateSet` (part_000 lines 144-174)
after a successful `api.fetch()` delivering the snapshot `t`.  Returns the
commands issued together with the request outcome; an error is thrown
before any command when eco mode is on or the mode is unsupported. -/
def Handler.handleTargetHeatingCoolingStateSet (t : Traits) (value : ℕ) :
    List Command × Res Unit :=
  match getEcoMode t with
  | .error e => ([], .error e)
  | .ok eco =>
    if eco = EcoMode.manualEco then ([], .error .notAllowedInCurrentState)
    else
      let mode := valueToMode value
      match getAvailableTargetModes t with
      | .error e => ([], .error e)
      | .ok avail =>
        if avail.contains mode.toWire then ([Command.setMode mode], .ok ())
        else ([], .error .invalidValueInRequest)

/-- Embeds `handleTargetTemperatureGet` (part_000 lines 181-195): the
`heat && !cool` / `!heat && cool` tests use JS truthiness, and every other
case (both present, or both absent/falsy) returns the ambient
temperature. -/
def Handler.handleTargetTemperatureGet (t : Traits) : Res ℚ :=
  match getTemperatureSetpoint t with
  | .error e => .error e
  | .ok sp =>
    match truthyNumVal sp.heatCelsius, truthyNumVal sp.coolCelsius with
    | some h, none => .ok h
    | none, some c => .ok c
    | _, _ => getCurrentTemperature t

/-- Embeds `handleTargetTemperatureSet` (part_000 lines 197-200): always
throws `READ_ONLY_CHARACTERISTIC`, performs no fetch and issues no
command. -/
def Handler.handleTargetTemperatureSet (_value : ℚ) : List Command × Res Unit :=
  ([], .error .readOnlyCharacteristic)

/-- Embeds `handleTemperatureDisplayUnitsSet` (part_000 lines 213-216):
always throws `READ_ONLY_CHARACTERISTIC`, no fetch, no command. -/
def Handler.handleTemperatureDisplayUnitsSet (_value : ℕ) : List Command × Res Unit :=
  ([], .error .readOnlyCharacteristic)

/-- Embeds `handleCoolingThresholdTemperatureSet` (part_000 lines 229-252)
after a successful fetch delivering `t`. -/
def Handler.handleCoolingThresholdTemperatureSet (t : Traits) (value : ℚ) :
    List Command × Res Unit :=
  match getEcoMode t with
  | .error e => ([], .error e)
  | .ok eco =>
    if eco = EcoMode.manualEco then ([], .error .notAllowedInCurrentState)
    else
      match getTargetMode t with
      | .error e => ([], .error e)
      | .ok mode =>
        if mode ≠ RemoteMode.cool ∧ mode ≠ RemoteMode.heatcool then
          ([], .error .notAllowedInCurrentState)
        else if mode = RemoteMode.cool then ([Command.setCool value], .ok ())
        else
          match getTemperatureSetpoint t with
          | .error e => ([], .error e)
          | .ok sp => ([Command.setRange sp.heatCelsius (some value)], .ok ())

/-- Embeds `handleHeatingThresholdTemperatureSet` (part_000 lines 265-288)
after a successful fetch delivering `t`. -/
def Handler.handleHeatingThresholdTemperatureSet (t : Traits) (value : ℚ) :
    List Command × Res Unit :=
  match getEcoMode t with
  | .error e => ([], .error e)
  | .ok eco =>
    if eco = EcoMode.manualEco then ([], .error .notAllowedInCurrentState)
    else
      match getTargetMode t with
      | .error e => ([], .error e)
      | .ok mode =>
        if mode ≠ RemoteMode.heat ∧ mode ≠ RemoteMode.heatcool then
          ([], .error .notAllowedInCurrentState)
        else if mode = RemoteMode.heat then ([Command.setHeat value], .ok ())
        else
          match getTemperatureSetpoint t with
          | .error e => ([], .error e)
          | .ok sp => ([Command.setRange (some value) sp.coolCelsius], .ok ())

/-- Embeds `handleEcoSwitchSet` (part_000 lines 295-300, identical to
platformAccessory.ts lines 912-916): no fetch, no cache read — it issues
`ThermostatEco.SetMode` unconditionally and `executeCommand` only logs a
non-200 status, so the handler never throws. -/
def Handler.handleEcoSwitchSet (value : Bool) : List Command × Res Unit :=
  ([Command.ecoSetMode (if value then EcoMode.manualEco else EcoMode.off)], .ok ())

/-- Embeds `GoogleNestThermostat.handleTargetTemperatureGet`
(src/src/platformAccessory.ts lines 799-824), the iteration that
reconciles a range-mode setpoint with a single target display: when hvac
is OFF it returns the ambient temperature; with both setpoints truthy it
returns whichever is strictly closer to ambient, so an exact tie falls to
the cool value. -/
def Thermostat.handleTargetTemperatureGet (t : Traits) : Res ℚ :=
  match getHvacStatus t with
  | .error e => .error e
  | .ok status =>
    match getCurrentTemperature t with
    | .error e => .error e
    | .ok temp =>
      if status = HvacStatus.off then .ok temp
      else
        match getTemperatureSetpoint t with
        | .error e => .error e
        | .ok sp =>
          match truthyNumVal sp.heatCelsius, truthyNumVal sp.coolCelsius with
          | none, none => .error .resourceDoesNotExist
          | some h, none => .ok h
          | none, some c => .ok c
          | some h, some c => .ok (if |temp - h| < |temp - c| then h else c)

/-- Adaptive timeout nominal budget: `seconds(5)` in the `Timeout` class of
the api iteration (src/src/platformAccessory.ts lines 1075-1090). -/
def nominalTimeoutMs : ℕ := 5 * 1000

/-- Adaptive timeout widened budget: `seconds(30)` (`Timeout.offline`). -/
def offlineTimeoutMs : ℕ := 30 * 1000

/-- The refresh-lock wait bound: `withTimeout(new Mutex(), 500, ...)`
(src/src/platformAccessory.ts line 1124). -/
def fetchMutexWaitMs : ℕ := 500

/-- State of `GoogleNestThermostatApi` (lines 1121-1135): the cache entry
(traits abstracting `traits`/`characrestics`, which are set together by
`save`), its timestamp, and the current `Timeout` value. -/
structure ApiState where
  traits : Option Traits
  timestamp : ℕ
  timeoutValue : ℕ
deriving DecidableEq

/-- A remote device read: the HTTP status and the device document
abstracted to its extracted traits (`deviceToTraits`, lines 1096-1117, is
a pure projection and is the identity in this embedding). -/
structure DeviceResponse where
  status : ℕ
  data : Traits
deriving DecidableEq

/-- Outcome of one `fetch()` call: the new api state, the request result
(`ok` means the cached characteristics were returned), how many remote
reads were attempted, and the display-unit notifications delivered
synchronously during the call, in order. -/
structure FetchResult where
  state : ApiState
  result : Res Unit
  remoteReads : ℕ
  notifications : List DisplayUnit

/-- Embeds `GoogleNestThermostatApi.save` (lines 1144-1154): fires
`onDisplayUnit` exactly when the new unit is present and differs from the
cached one, then replaces the cache entry and timestamp (the timeout is
untouched here). -/
def apiSave (s : ApiState) (now : ℕ) (t : Traits) : ApiState × List DisplayUnit :=
  let notifs :=
    match t.displayUnit with
    | none => []
    | some u => if Option.bind s.traits Traits.displayUnit = some u then [] else [u]
  (⟨some t, now, s.timeoutValue⟩, notifs)

/-- Embeds the code after the lock release in `fetch` (lines 1182-1189):
if the (possibly refreshed) cached traits report OFFLINE, widen the
timeout and throw `SERVICE_COMMUNICATION_FAILURE`; otherwise reset the
timeout to nominal and return the cached characteristics. -/
def apiPostRelease (s : ApiState) (reads : ℕ) (notifs : List DisplayUnit) : FetchResult :=
  if Option.bind s.traits Traits.connectivity = some Connectivity.offline then
    ⟨⟨s.traits, s.timestamp, offlineTimeoutMs⟩, .error .serviceCommunicationFailure, reads, notifs⟩
  else
    ⟨⟨s.traits, s.timestamp, nominalTimeoutMs⟩, .ok (), reads, notifs⟩

/-- Embeds the cache-miss path of `fetch` (lines 1166-1177 plus the
post-release block): one remote read; on status 200 `save` runs, on any
other status the previous entry is kept, and with no previous entry the
call throws `SERVICE_COMMUNICATION_FAILURE` from inside the lock (so the
timeout is not touched in that case). -/
def apiFetchMiss (s : ApiState) (now : ℕ) (resp : DeviceResponse) : FetchResult :=
  if resp.status = 200 then
    let sn := apiSave s now resp.data
    apiPostRelease sn.1 1 sn.2
  else
    match s.traits with
    | none => ⟨s, .error .serviceCommunicationFailure, 1, []⟩
    | some _ => apiPostRelease s 1 []

/-- Embeds `GoogleNestThermostatApi.fetch` (lines 1156-1190) as a step
function, with the lock already held: a fresh entry is served without a
remote read (throwing `SERVICE_COMMUNICATION_FAILURE` if it is OFFLINE,
without touching the timeout); otherwise the miss path runs. -/
def apiFetch (s : ApiState) (now : ℕ) (resp : DeviceResponse) : FetchResult :=
  match s.traits with
  | some t =>
    if now - s.timestamp ≤ s.timeoutValue then
      if t.connectivity = some Connectivity.offline then
        ⟨s, .error .serviceCommunicationFailure, 0, []⟩
      else ⟨s, .ok (), 0, []⟩
    else apiFetchMiss s now resp
  | none => apiFetchMiss s now resp

/-- Modelled from the spec: the bounded-wait lock acquisition provided by
the external `async-mutex` `withTimeout` wrapper (configured at line 1124
with a 500ms bound and a `RESOURCE_BUSY` error) — acquisition succeeds iff
the wait does not exceed the bound; otherwise the configured error is
thrown before the critical section runs, so nothing is read or written. -/
def apiFetchWithLock (s : ApiState) (now lockWaitMs : ℕ) (resp : DeviceResponse) : FetchResult :=
  if fetchMutexWaitMs < lockWaitMs then ⟨s, .error .resourceBusy, 0, []⟩
  else apiFetch s now resp

/-- Runs a sequence of fetch calls, each given its own clock value and
remote response, threading the api state; collects the per-call results. -/
def runFetches (s : ApiState) : List (ℕ × DeviceResponse) → List (Res Unit) × ApiState
  | [] => ([], s)
  | step :: rest =>
    let r := apiFetch s step.1 step.2
    let rs := runFetches r.state rest
    (r.result :: rs.1, rs.2)

/-- The cache-hit condition of `fetch` (line 1159): an entry exists and is
within the current staleness budget. -/
def cacheFresh (s : ApiState) (now : ℕ) : Prop :=
  s.traits ≠ none ∧ now - s.timestamp ≤ s.timeoutValue

/-- A traits record with every trait group absent. -/
def emptyTraits : Traits :=
  { connectivity := none, ecoMode := none, currentTemperature := none,
    hvacStatus := none, targetMode := none, availableTargetModes := none,
    displayUnit := none, temperatureSetpoint := none, relativeHumidity := none }

/-- A snapshot reporting only `connectivity = OFFLINE`. -/
def offlineTraits : Traits :=
  { emptyTraits with connectivity := some Connectivity.offline }

/-- A snapshot reporting only `connectivity = ONLINE`. -/
def onlineTraits : Traits :=
  { emptyTraits with connectivity := some Connectivity.online }

/-- A fully populated MANUAL_ECO snapshot used as a witness input. -/
def ecoTraits : Traits :=
  { connectivity := some Connectivity.online, ecoMode := some EcoMode.manualEco,
    currentTemperature := some 20, hvacStatus := some HvacStatus.heating,
    targetMode := some RemoteMode.heat,
    availableTargetModes := some ["HEAT", "COOL", "HEATCOOL", "OFF"],
    displayUnit := some DisplayUnit.celsius,
    temperatureSetpoint := some ⟨some 20, none⟩, relativeHumidity := some 50 }

/-- A snapshot with only a heat setpoint (heat 21, ambient 20). -/
def heatOnlyTraits : Traits :=
  { connectivity := some Connectivity.online, ecoMode := some EcoMode.off,
    currentTemperature := some 20, hvacStatus := some HvacStatus.heating,
    targetMode := some RemoteMode.heat, availableTargetModes := some ["HEAT", "OFF"],
    displayUnit := some DisplayUnit.celsius,
    temperatureSetpoint := some ⟨some 21, none⟩, relativeHumidity := some 45 }

/-- A snapshot at an exact setpoint tie: ambient 20, heat 18, cool 22. -/
def tieTraits : Traits :=
  { connectivity := some Connectivity.online, ecoMode := some EcoMode.off,
    currentTemperature := some 20, hvacStatus := some HvacStatus.heating,
    targetMode := some RemoteMode.heatcool, availableTargetModes := none,
    displayUnit := some DisplayUnit.celsius,
    temperatureSetpoint := some ⟨some 18, some 22⟩, relativeHumidity := none }

/-- A snapshot whose ambient temperature is exactly 0°C and whose heat
setpoint is exactly 0 while the cool setpoint is 25. -/
def zeroHeatTraits : Traits :=
  { emptyTraits with currentTemperature := some 0, temperatureSetpoint := some ⟨some 0, some 25⟩ }

/-- The api state at accessory construction: no entry yet, nominal budget. -/
def initialApiState : ApiState := ⟨none, 0, nominalTimeoutMs⟩

/-- A cached OFFLINE entry carrying the widened 30s budget. -/
def offlineCachedState : ApiState := ⟨some offlineTraits, 0, offlineTimeoutMs⟩

/-- A cached ONLINE entry carrying a widened (30s) budget. -/
def staleOnlineWidenedState : ApiState := ⟨some onlineTraits, 0, offlineTimeoutMs⟩

/-- Helper: the post-release block passes the notification list through. -/
theorem apiPostRelease_notifications (s : ApiState) (r : ℕ) (n : List DisplayUnit) :
    (apiPostRelease s r n).notifications = n := by
  unfold apiPostRelease
  split <;> rfl

/-- Helper: save delivers at most one notification, and none when the new
display unit equals the cached entry's. -/
theorem apiSave_notifications (s : ApiState) (now : ℕ) (d : Traits) :
    (apiSave s now d).2.length ≤ 1 ∧
    (∀ t, s.traits = some t → d.displayUnit = t.displayUnit → (apiSave s now d).2 = []) := by
  constructor
  · unfold apiSave
    rcases hd : d.displayUnit with _ | u
    · simp
    · dsimp only
      split <;> simp
  · intro t ht hdu
    unfold apiSave
    rcases hd : d.displayUnit with _ | u
    · simp
    · dsimp only
      rw [ht, Option.some_bind, ← hdu, hd, if_pos rfl]

/-- Helper: the miss path delivers at most one notification. -/
theorem apiFetchMiss_notifications_len (s : ApiState) (now : ℕ) (resp : DeviceResponse) :
    (apiFetchMiss s now resp).notifications.length ≤ 1 := by
  unfold apiFetchMiss
  split
  · rw [apiPostRelease_notifications]
    exact (apiSave_notifications s now resp.data).1
  · rcases hs : s.traits with _ | t
    · simp
    · simp [apiPostRelease_notifications]

/-- Helper: the miss path delivers no notification when the fetched
display unit equals the cached entry's. -/
theorem apiFetchMiss_notifications_eq (s : ApiState) (now : ℕ) (resp : DeviceResponse)
    (t : Traits) (ht : s.traits = some t) (hdu : resp.data.displayUnit = t.displayUnit) :
    (apiFetchMiss s now resp).notifications = [] := by
  unfold apiFetchMiss
  split
  · rw [apiPostRelease_notifications]
    exact (apiSave_notifications s now resp.data).2 t ht hdu
  · simp [ht, apiPostRelease_notifications]

/-- Helper: with a stale (or absent) entry, fetch runs the miss path. -/
theorem apiFetch_eq_miss (s : ApiState) (now : ℕ) (resp : DeviceResponse)
    (hmiss : ¬ cacheFresh s now) :
    apiFetch s now resp = apiFetchMiss s now resp := by
  rcases hs : s.traits with _ | t0
  · simp [apiFetch, hs]
  · have hstale : ¬ (now - s.timestamp ≤ s.timeoutValue) := fun hle =>
      hmiss ⟨by simp [hs], hle⟩
    simp [apiFetch, hs, hstale]

/-- Helper: a status-200 miss saves the new traits and runs the
post-release block over them. -/
theorem apiFetchMiss_status200 (s : ApiState) (now : ℕ) (resp : DeviceResponse)
    (h200 : resp.status = 200) :
    apiFetchMiss s now resp =
      apiPostRelease ⟨some resp.data, now, s.timeoutValue⟩ 1 (apiSave s now resp.data).2 := by
  unfold apiFetchMiss
  rw [if_pos h200]
  rfl

/-- Helper: one fetch over an OFFLINE cached entry fails with
SERVICE_COMMUNICATION_FAILURE and leaves an OFFLINE entry cached, unless
the response is a status-200 document with non-OFFLINE traits. -/
theorem offline_cached_fetch_fails (s : ApiState) (t : Traits) (now : ℕ)
    (resp : DeviceResponse)
    (hc : s.traits = some t) (hoff : t.connectivity = some Connectivity.offline)
    (hno : ¬ (resp.status = 200 ∧ resp.data.connectivity ≠ some Connectivity.offline)) :
    (apiFetch s now resp).result = .error .serviceCommunicationFailure ∧
    ∃ t', (apiFetch s now resp).state.traits = some t' ∧
      t'.connectivity = some Connectivity.offline := by
  by_cases hfresh : now - s.timestamp ≤ s.timeoutValue
  · have : apiFetch s now resp = ⟨s, .error .serviceCommunicationFailure, 0, []⟩ := by
      simp [apiFetch, hc, hfresh, hoff]
    rw [this]
    exact ⟨rfl, t, hc, hoff⟩
  · have hm : apiFetch s now resp = apiFetchMiss s now resp := by
      simp [apiFetch, hc, hfresh]
    rw [hm]
    by_cases h200 : resp.status = 200
    · have hroff : resp.data.connectivity = some Connectivity.offline := by
        by_contra hr
        exact hno ⟨h200, hr⟩
      rw [apiFetchMiss_status200 s now resp h200]
      unfold apiPostRelease
      rw [Option.some_bind, hroff, if_pos rfl]
      exact ⟨rfl, resp.data, rfl, hroff⟩
    · have : apiFetchMiss s now resp = apiPostRelease s 1 [] := by
        simp [apiFetchMiss, h200, hc]
      rw [this]
      unfold apiPostRelease
      rw [hc, Option.some_bind, hoff, if_pos rfl]
      exact ⟨rfl, t, rfl, hoff⟩

/-- Claim C1, counterexample: at an exact tie (ambient 20 midway between
heat 18 and cool 22) the single-target read returns the cool setpoint 22,
not the heat setpoint 18 — the strict `<` at line 822 sends ties to cool. -/
theorem target_temperature_tie_counterexample :
    |(20 : ℚ) - 18| = |(20 : ℚ) - 22| ∧
    Thermostat.handleTargetTemperatureGet tieTraits = .ok 22 ∧ (22 : ℚ) ≠ 18 := by
  refine ⟨by norm_num, ?_, by norm_num⟩
  simp only [Thermostat.handleTargetTemperatureGet, tieTraits, getHvacStatus,
    getCurrentTemperature, getTemperatureSetpoint, truthyNumVal]
  norm_num
  decide

/-- Claim C1 (amended): for the range-reconciling read of platformAccessory.ts
lines 799-824, on snapshots whose hvac status is present and not OFF, whose
ambient temperature is present and nonzero, and whose setpoint trait is
present: if exactly one of heat/cool is present-and-nonzero the read
returns it; if both are, it returns whichever is numerically closer to the
ambient temperature, with ties going to cool. -/
theorem target_temperature_read_policy (t : Traits) (st : HvacStatus) (temp : ℚ)
    (sp : Setpoint)
    (hs : t.hvacStatus = some st) (hst : st ≠ HvacStatus.off)
    (ht : t.currentTemperature = some temp) (htz : temp ≠ 0)
    (hsp : t.temperatureSetpoint = some sp) :
    (∀ h, truthyNumVal sp.heatCelsius = some h → truthyNumVal sp.coolCelsius = none →
      Thermostat.handleTargetTemperatureGet t = .ok h) ∧
    (∀ c, truthyNumVal sp.heatCelsius = none → truthyNumVal sp.coolCelsius = some c →
      Thermostat.handleTargetTemperatureGet t = .ok c) ∧
    (∀ h c, truthyNumVal sp.heatCelsius = some h → truthyNumVal sp.coolCelsius = some c →
      Thermostat.handleTargetTemperatureGet t =
        .ok (if |temp - h| < |temp - c| then h else c)) := by
  refine ⟨fun h hh hc => ?_, fun c hh hc => ?_, fun h c hh hc => ?_⟩ <;>
    simp [Thermostat.handleTargetTemperatureGet, getHvacStatus, hs, hst,
      getCurrentTemperature, ht, htz, getTemperatureSetpoint, hsp, hh, hc]

/-- Witness for C1 at a snapshot with only a heat setpoint (21). -/
theorem target_temperature_read_policy_witness :
    Thermostat.handleTargetTemperatureGet heatOnlyTraits = .ok 21 :=
  (target_temperature_read_policy heatOnlyTraits HvacStatus.heating 20 ⟨some 21, none⟩
    rfl (by decide) rfl (by norm_num) rfl).1 21 (by norm_num [truthyNumVal]) rfl

/-- Claim C2 (confirmed): with `ecoMode = MANUAL_ECO` in the fetched
snapshot, the target-mode set and both threshold sets throw
`NOT_ALLOWED_IN_CURRENT_STATE` with no command issued, while the
eco-switch set still issues `ThermostatEco.SetMode` and succeeds. -/
theorem eco_gating (t : Traits) (value : ℕ) (q : ℚ) (b : Bool)
    (h : t.ecoMode = some EcoMode.manualEco) :
    Handler.handleTargetHeatingCoolingStateSet t value =
      ([], .error .notAllowedInCurrentState) ∧
    Handler.handleCoolingThresholdTemperatureSet t q =
      ([], .error .notAllowedInCurrentState) ∧
    Handler.handleHeatingThresholdTemperatureSet t q =
      ([], .error .notAllowedInCurrentState) ∧
    Handler.handleEcoSwitchSet b =
      ([Command.ecoSetMode (if b then EcoMode.manualEco else EcoMode.off)], .ok ()) := by
  refine ⟨?_, ?_, ?_, rfl⟩ <;>
    simp [Handler.handleTargetHeatingCoolingStateSet,
      Handler.handleCoolingThresholdTemperatureSet,
      Handler.handleHeatingThresholdTemperatureSet, getEcoMode, h]

/-- Witness for C2 at a concrete MANUAL_ECO snapshot. -/
theorem eco_gating_witness :
    Handler.handleTargetHeatingCoolingStateSet ecoTraits 1 =
      ([], .error .notAllowedInCurrentState) ∧
    Handler.handleCoolingThresholdTemperatureSet ecoTraits 25 =
      ([], .error .notAllowedInCurrentState) ∧
    Handler.handleHeatingThresholdTemperatureSet ecoTraits 25 =
      ([], .error .notAllowedInCurrentState) ∧
    Handler.handleEcoSwitchSet true =
      ([Command.ecoSetMode (if true then EcoMode.manualEco else EcoMode.off)], .ok ()) :=
  eco_gating ecoTraits 1 25 true rfl

/-- Claim C3, counterexample: with an OFFLINE entry cached and stale, a
status-200 refresh whose device document omits the Connectivity trait
(reporting neither ONLINE nor OFFLINE) makes the get call succeed — gets
do not keep failing until a fetch reports ONLINE. -/
theorem offline_clears_without_online_counterexample :
    emptyTraits.connectivity ≠ some Connectivity.online ∧
    (apiFetch offlineCachedState 40000 ⟨200, emptyTraits⟩).result = .ok () :=
  ⟨by simp [emptyTraits], rfl⟩

/-- Claim C3 (amended): a refresh whose traits report OFFLINE widens the
budget to the long 30s value and fails with
`SERVICE_COMMUNICATION_FAILURE`; a refresh reporting ONLINE resets the
budget to the nominal 5s value and succeeds; and with an OFFLINE entry
cached, every subsequent get call fails with
`SERVICE_COMMUNICATION_FAILURE` as long as no status-200 response with
non-OFFLINE traits arrives. -/
theorem offline_backoff_policy :
    (∀ s now resp, ¬ cacheFresh s now → resp.status = 200 →
      resp.data.connectivity = some Connectivity.offline →
      (apiFetch s now resp).state.timeoutValue = offlineTimeoutMs ∧
      (apiFetch s now resp).result = .error .serviceCommunicationFailure) ∧
    (∀ s now resp, ¬ cacheFresh s now → resp.status = 200 →
      resp.data.connectivity = some Connectivity.online →
      (apiFetch s now resp).state.timeoutValue = nominalTimeoutMs ∧
      (apiFetch s now resp).result = .ok ()) ∧
    (∀ s t steps, s.traits = some t → t.connectivity = some Connectivity.offline →
      (∀ p ∈ steps, ¬ (p.2.status = 200 ∧ p.2.data.connectivity ≠ some Connectivity.offline)) →
      ∀ r ∈ (runFetches s steps).1, r = .error .serviceCommunicationFailure) := by
  refine ⟨?_, ?_, ?_⟩
  · intro s now resp hmiss h200 hoff
    rw [apiFetch_eq_miss s now resp hmiss, apiFetchMiss_status200 s now resp h200]
    unfold apiPostRelease
    rw [Option.some_bind, hoff, if_pos rfl]
    exact ⟨rfl, rfl⟩
  · intro s now resp hmiss h200 hon
    rw [apiFetch_eq_miss s now resp hmiss, apiFetchMiss_status200 s now resp h200]
    unfold apiPostRelease
    rw [Option.some_bind, hon, if_neg (by simp)]
    exact ⟨rfl, rfl⟩
  · intro s t steps
    induction steps generalizing s t with
    | nil =>
      intro _ _ _ r hr
      simp [runFetches] at hr
    | cons p rest ih =>
      intro hc hoff hall r hr
      obtain ⟨h1, t', ht', hoff'⟩ :=
        offline_cached_fetch_fails s t p.1 p.2 hc hoff (hall p (by simp))
      simp only [runFetches, List.mem_cons] at hr
      rcases hr with hr | hr
      · rw [hr, h1]
      · exact ih (apiFetch s p.1 p.2).state t' ht' hoff'
          (fun q hq => hall q (by simp [hq])) r hr

/-- Witness for C3: the very first fetch returning a 200 document whose
traits report OFFLINE widens the budget and fails. -/
theorem offline_backoff_policy_witness :
    (apiFetch initialApiState 0 ⟨200, offlineTraits⟩).state.timeoutValue = offlineTimeoutMs ∧
    (apiFetch initialApiState 0 ⟨200, offlineTraits⟩).result =
      .error .serviceCommunicationFailure :=
  offline_backoff_policy.1 initialApiState 0 ⟨200, offlineTraits⟩
    (by simp [cacheFresh, initialApiState]) rfl rfl

/-- Claim C4, counterexample: a failed (status 500) refresh over a stale
ONLINE entry carrying the widened 30s budget serves the old entry but
resets the adaptive timeout to the nominal 5s — the timeout state is not
left unchanged, and the reset is not restricted to successful fetches. -/
theorem failed_fetch_resets_timeout_counterexample :
    staleOnlineWidenedState.timeoutValue = offlineTimeoutMs ∧
    (apiFetch staleOnlineWidenedState 40000 ⟨500, emptyTraits⟩).state.traits =
      staleOnlineWidenedState.traits ∧
    (apiFetch staleOnlineWidenedState 40000 ⟨500, emptyTraits⟩).result = .ok () ∧
    (apiFetch staleOnlineWidenedState 40000 ⟨500, emptyTraits⟩).state.timeoutValue =
      nominalTimeoutMs ∧
    nominalTimeoutMs ≠ offlineTimeoutMs :=
  ⟨rfl, rfl, rfl, rfl, by decide⟩

/-- Claim C4 (amended): on a non-OK refresh the previous entry (if any) is
kept and served, but the adaptive timeout is then updated from that
entry's connectivity — reset to nominal when it is not OFFLINE, widened
with the call failing when it is; with no previous entry the call fails
with `SERVICE_COMMUNICATION_FAILURE` and the state is untouched. -/
theorem fetch_failure_policy (s : ApiState) (now : ℕ) (resp : DeviceResponse)
    (hfail : resp.status ≠ 200) (hmiss : ¬ cacheFresh s now) :
    (s.traits = none →
      apiFetch s now resp = ⟨s, .error .serviceCommunicationFailure, 1, []⟩) ∧
    (∀ t, s.traits = some t → t.connectivity ≠ some Connectivity.offline →
      apiFetch s now resp = ⟨⟨s.traits, s.timestamp, nominalTimeoutMs⟩, .ok (), 1, []⟩) ∧
    (∀ t, s.traits = some t → t.connectivity = some Connectivity.offline →
      apiFetch s now resp =
        ⟨⟨s.traits, s.timestamp, offlineTimeoutMs⟩,
          .error .serviceCommunicationFailure, 1, []⟩) := by
  rw [apiFetch_eq_miss s now resp hmiss]
  refine ⟨?_, ?_, ?_⟩
  · intro h0
    simp [apiFetchMiss, hfail, h0]
  · intro t ht hconn
    simp [apiFetchMiss, hfail, ht, apiPostRelease, hconn]
  · intro t ht hconn
    simp [apiFetchMiss, hfail, ht, apiPostRelease, hconn]

/-- Witness for C4: the first-ever fetch failing with status 500 throws
`SERVICE_COMMUNICATION_FAILURE` and leaves the state untouched. -/
theorem fetch_failure_policy_witness :
    apiFetch initialApiState 0 ⟨500, emptyTraits⟩ =
      ⟨initialApiState, .error .serviceCommunicationFailure, 1, []⟩ :=
  (fetch_failure_policy initialApiState 0 ⟨500, emptyTraits⟩ (by decide)
    (by simp [cacheFresh, initialApiState])).1 rfl

/-- Claim C5 (confirmed): when the refresh-lock wait exceeds the 500ms
bound, the fetch call fails with `RESOURCE_BUSY`, attempts no remote read
and leaves the cache entry and adaptive timeout untouched. -/
theorem lock_timeout_resource_busy (s : ApiState) (now w : ℕ) (resp : DeviceResponse)
    (h : fetchMutexWaitMs < w) :
    apiFetchWithLock s now w resp = ⟨s, .error .resourceBusy, 0, []⟩ := by
  simp [apiFetchWithLock, h]

/-- Witness for C5: a 501ms wait on the initial state. -/
theorem lock_timeout_resource_busy_witness :
    apiFetchWithLock initialApiState 0 501 ⟨200, onlineTraits⟩ =
      ⟨initialApiState, .error .resourceBusy, 0, []⟩ :=
  lock_timeout_resource_busy initialApiState 0 501 ⟨200, onlineTraits⟩ (by decide)

/-- Claim C6 (confirmed): for each local mode in {OFF, HEAT, COOL, AUTO},
mapping it to the remote mode via `valueToMode` (AUTO ↦ HEATCOOL) and
reading the remote mode back through the target-mode get yields the
original local value. -/
theorem mode_round_trip (m : LocalMode) (t : Traits)
    (h : t.targetMode = some (valueToMode (localModeValue m))) :
    Handler.handleTargetHeatingCoolingStateGet t = .ok (localModeValue m) := by
  cases m <;>
    simp [Handler.handleTargetHeatingCoolingStateGet, getTargetMode, h, valueToMode,
      localModeValue, TargetStateOFF, TargetStateHEAT, TargetStateCOOL, TargetStateAUTO,
      CurrentStateOFF]

/-- Witness for C6: the AUTO round trip at a concrete snapshot. -/
theorem mode_round_trip_witness :
    Handler.handleTargetHeatingCoolingStateGet
      { emptyTraits with targetMode := some (valueToMode (localModeValue LocalMode.auto)) } =
      .ok (localModeValue LocalMode.auto) :=
  mode_round_trip LocalMode.auto _ rfl

/-- Claim C7 (confirmed): during every fetch the display-unit notification
is delivered at most once (synchronously, as part of the step itself), and
never when the newly fetched display unit equals the display unit of the
previous cache entry. -/
theorem display_unit_notification_once (s : ApiState) (now : ℕ) (resp : DeviceResponse) :
    (apiFetch s now resp).notifications.length ≤ 1 ∧
    (∀ t, s.traits = some t → resp.data.displayUnit = t.displayUnit →
      (apiFetch s now resp).notifications = []) := by
  constructor
  · rcases hs : s.traits with _ | t0
    · rw [show apiFetch s now resp = apiFetchMiss s now resp by simp [apiFetch, hs]]
      exact apiFetchMiss_notifications_len s now resp
    · by_cases hfresh : now - s.timestamp ≤ s.timeoutValue
      · simp only [apiFetch, hs, if_pos hfresh]
        split <;> simp
      · rw [show apiFetch s now resp = apiFetchMiss s now resp by
          simp [apiFetch, hs, hfresh]]
        exact apiFetchMiss_notifications_len s now resp
  · intro t ht hdu
    by_cases hfresh : now - s.timestamp ≤ s.timeoutValue
    · simp only [apiFetch, ht, if_pos hfresh]
      split <;> rfl
    · rw [show apiFetch s now resp = apiFetchMiss s now resp by
        simp [apiFetch, ht, hfresh]]
      exact apiFetchMiss_notifications_eq s now resp t ht hdu

/-- Witness for C7: a refresh whose document carries the same (absent)
display unit as the cached entry delivers no notification. -/
theorem display_unit_notification_once_witness :
    (apiFetch staleOnlineWidenedState 40000 ⟨200, emptyTraits⟩).notifications = [] :=
  (display_unit_notification_once staleOnlineWidenedState 40000 ⟨200, emptyTraits⟩).2
    onlineTraits rfl rfl

/-- Claim C8 (confirmed): for every input value, a write to the
target-temperature characteristic and a write to the display-unit
characteristic each throw `READ_ONLY_CHARACTERISTIC` and issue no remote
command. -/
theorem read_only_writes (v : ℚ) (u : ℕ) :
    Handler.handleTargetTemperatureSet v = ([], .error .readOnlyCharacteristic) ∧
    Handler.handleTemperatureDisplayUnitsSet u = ([], .error .readOnlyCharacteristic) :=
  ⟨rfl, rfl⟩

/-- Claim C9 (confirmed): the accessor's `get` fails with
`RESOURCE_DOES_NOT_EXIST` on any JS-falsy value, not only on absence; in
particular an ambient temperature of exactly 0°C makes the
current-temperature read fail, and a zero heat setpoint is treated as
absent by the target-temperature fallback read, which then returns the
cool setpoint alone. -/
theorem falsy_values_error (v : JsValue) (t : Traits) (sp : Setpoint) (c : ℚ)
    (hv : v.truthy = false)
    (ht : t.currentTemperature = some 0)
    (hsp : t.temperatureSetpoint = some sp)
    (hh : sp.heatCelsius = some 0) (hc : sp.coolCelsius = some c) (hcz : c ≠ 0) :
    jsGet (some v) = .error .resourceDoesNotExist ∧
    getCurrentTemperature t = .error .resourceDoesNotExist ∧
    Handler.handleTargetTemperatureGet t = .ok c := by
  refine ⟨?_, ?_, ?_⟩
  · simp [jsGet, hv]
  · simp [getCurrentTemperature, ht]
  · simp [Handler.handleTargetTemperatureGet, getTemperatureSetpoint, hsp,
      truthyNumVal, hh, hc, hcz]

/-- Witness for C9 at a snapshot with ambient 0°C and setpoint
{heat 0, cool 25}. -/
theorem falsy_values_error_witness :
    jsGet (some (JsValue.num 0)) = .error .resourceDoesNotExist ∧
    getCurrentTemperature zeroHeatTraits = .error .resourceDoesNotExist ∧
    Handler.handleTargetTemperatureGet zeroHeatTraits = .ok 25 :=
  falsy_values_error (JsValue.num 0) zeroHeatTraits ⟨some 0, some 25⟩ 25
    (by decide) rfl rfl rfl rfl (by norm_num)

/-- Claim C10 (confirmed): the eco-switch set consults no cached state or
snapshot: for every input it issues exactly the `ThermostatEco.SetMode`
command and succeeds, so it can never throw any HAP error. -/
theorem eco_switch_set_unconditional (value : Bool) :
    Handler.handleEcoSwitchSet value =
      ([Command.ecoSetMode (if value then EcoMode.manualEco else EcoMode.off)],
        Except.ok ()) ∧
    ∀ e : HapErr, (Handler.handleEcoSwitchSet value).2 ≠ Except.error e := by
  refine ⟨rfl, ?_⟩
  intro e
  simp [Handler.handleEcoSwitchSet]
